import Mathlib

/-!
Shallow embedding of the userbot-host session lifecycle manager.

The repository contains several variants of the same Express server
(src/server.js and the files under src/unnamed).  Each variant keeps two
global maps, activeSessions (pending authentications) and activeClients
(live sessions), and exposes the HTTP handlers start-auth, verify-code,
session status, disconnect, plus an hourly cleanup sweep and a command
dispatcher registered on the protocol client event stream.

We model the two maps as association lists keyed by the session id, the
outbound protocol calls as oracle arguments (their outcome is an input of
each embedded handler), and each HTTP handler as a pure function from the
current store state, the request body and the oracle outcomes to the
response and the next store state.  JavaScript wall-clock reads are passed
in as natural-number millisecond timestamps.
-/

abbrev SessionId := String

/-- Resolved account identity, as returned by getMe / users.getFullUser. -/
structure UserInfo where
  userId : Nat
  username : String
  firstName : String
deriving Repr, DecidableEq

/-- A pending authentication entry, as stored in activeSessions by the
start-auth handlers: credentials, the phoneCodeHash returned by the code
request, the creation timestamp, and whether a protocol client handle was
stored with the entry.  The apiId field holds the result of parseInt on
the submitted apiId; none models NaN. -/
structure PendingAuth where
  phone : String
  apiId : Option Int
  apiHash : String
  phoneCodeHash : String
  createdAt : Nat
  hasClient : Bool
deriving Repr, DecidableEq

/-- A live session entry, as stored in activeClients by verify-code. -/
structure LiveSession where
  user : UserInfo
  connectedAt : Nat
deriving Repr, DecidableEq

/-- The two global maps of every server variant. -/
structure ServerState where
  activeSessions : List (SessionId × PendingAuth)
  activeClients : List (SessionId × LiveSession)
deriving Repr, DecidableEq

/-- JavaScript Map.set: replace the entry with this key in place, or append
a new entry at the end when the key is absent. -/
def mapSet {α : Type} (k : SessionId) (v : α) : List (SessionId × α) → List (SessionId × α)
  | [] => [(k, v)]
  | e :: es => if e.1 == k then (k, v) :: es else e :: mapSet k v es

/-- JavaScript Map.delete: remove the entry with this key. -/
def mapDelete {α : Type} (k : SessionId) (m : List (SessionId × α)) : List (SessionId × α) :=
  m.filter (fun e => e.1 != k)

/-- Promotion step one (verify-code success path, first statement):
activeClients.set(sessionId, ...). -/
def ServerState.insertLive (st : ServerState) (sid : SessionId) (ls : LiveSession) :
    ServerState :=
  { st with activeClients := mapSet sid ls st.activeClients }

/-- Promotion step two (verify-code success path, second statement):
activeSessions.delete(sessionId). -/
def ServerState.deletePending (st : ServerState) (sid : SessionId) : ServerState :=
  { st with activeSessions := mapDelete sid st.activeSessions }

/-- Promotion as performed by every verify-code success path: insert into
the live store, then delete from the pending store, with no await between
the two statements (they are consecutive synchronous calls, so no other
handler can observe the intermediate state). -/
def ServerState.promote (st : ServerState) (sid : SessionId) (ls : LiveSession) :
    ServerState :=
  (st.insertLive sid ls).deletePending sid

/-- The cross-store invariant: no session id with a pending entry also has
a live entry. -/
def StoreInvariant (st : ServerState) : Prop :=
  ∀ e ∈ st.activeSessions, st.activeClients.lookup e.1 = none

instance (st : ServerState) : Decidable (StoreInvariant st) :=
  inferInstanceAs (Decidable (∀ e ∈ st.activeSessions, st.activeClients.lookup e.1 = none))

/-- JavaScript falsiness of an optional request-body string: an absent
field or the empty string is falsy, as tested by the !-checks in the
handlers. -/
def jsFalsy (v : Option String) : Bool := v.getD "" == ""

/-- Character class skipped by parseInt before the number. -/
def isJsSpace (c : Char) : Bool := c = ' ' || c = '\t' || c = '\n' || c = '\r'

/-- Value of a leading run of decimal digits; none when there is no digit. -/
def jsParseIntDigits (cs : List Char) : Option Nat :=
  let ds := cs.takeWhile Char.isDigit
  if ds.isEmpty then none
  else some (ds.foldl (fun a c => a * 10 + (c.toNat - 48)) 0)

/-- JavaScript parseInt on a string (base 10): skip leading whitespace,
read an optional sign and then leading digits; none models NaN. -/
def jsParseInt (s : String) : Option Int :=
  match s.toList.dropWhile isJsSpace with
  | '-' :: rest => (jsParseIntDigits rest).map (fun n => -(n : Int))
  | '+' :: rest => (jsParseIntDigits rest).map (fun n => (n : Int))
  | cs => (jsParseIntDigits cs).map (fun n => (n : Int))

/-- The HTTP responses produced by the handlers, restricted to the fields
the claims are about. -/
structure Response where
  statusCode : Nat
  success : Bool := false
  requires2FA : Bool := false
  isConnected : Bool := false
  errMsg : Option String := none
  sessionId : Option SessionId := none
deriving Repr, DecidableEq

/-- Outcome of the outbound code request performed by start-auth
(client.connect plus client.sendCode, or auth.sendCode): either the
phoneCodeHash, or the thrown error message. -/
inductive CodeRequestResult where
  | ok (phoneCodeHash : String)
  | err (msg : String)
deriving Repr, DecidableEq

/-- Outcome of the sign-in attempt of verify-code (the sign-in call plus
the identity resolution that follows it), classified the way the catch
blocks of the handlers classify the thrown error. -/
inductive SignInResult where
  | ok (user : UserInfo)
  | phoneCodeInvalid
  | phoneCodeExpired
  | sessionPasswordNeeded
  | otherError (msg : String)
deriving Repr, DecidableEq

/-- Outcome of the second-factor password verification call. -/
inductive PasswordResult where
  | ok (user : UserInfo)
  | err (msg : String)
deriving Repr, DecidableEq

namespace Part000

/-- src/unnamed/part_000 lines 30-95, POST /api/start-auth: reject a
missing field, reject a non-numeric apiId, then connect and send the code
request (oracle), and only on success insert the PendingAuth under a fresh
session id.  The third component records whether the outbound
connect/sendCode call was made. -/
def startAuth (st : ServerState) (phone apiId apiHash : Option String)
    (freshSid : SessionId) (now : Nat) (upstream : CodeRequestResult) :
    Response × ServerState × Bool :=
  if jsFalsy phone || jsFalsy apiId || jsFalsy apiHash then
    ({ statusCode := 400, errMsg := some "Missing required fields" }, st, false)
  else if (jsParseInt (apiId.getD "")).isNone then
    ({ statusCode := 400, errMsg := some "API ID must be a number" }, st, false)
  else
    match upstream with
    | .ok pch =>
      ({ statusCode := 200, success := true, sessionId := some freshSid },
       { st with activeSessions :=
           (mapSet freshSid
             (PendingAuth.mk (phone.getD "") (jsParseInt (apiId.getD ""))
               (apiHash.getD "") pch now true) st.activeSessions) },
       true)
    | .err m =>
      ({ statusCode := 500, errMsg := some ("Failed to send verification code: " ++ m) },
       st, true)

/-- src/unnamed/part_000 lines 98-181, POST /api/verify-code: reject a
missing field, look up the pending entry (404 when absent), then attempt
sign-in.  On SESSION_PASSWORD_NEEDED without a password reply 400 with the
requires2FA flag; with a password this variant replies 400 that 2FA is not
fully supported.  On success promote the session (activeClients.set then
activeSessions.delete); the classified failures reply 500 and leave the
stores untouched. -/
def verifyCode (st : ServerState) (sessionId code password : Option String)
    (signIn : SignInResult) (now : Nat) : Response × ServerState :=
  if jsFalsy sessionId || jsFalsy code then
    ({ statusCode := 400, errMsg := some "Missing session ID or code" }, st)
  else
    match st.activeSessions.lookup (sessionId.getD "") with
    | none => ({ statusCode := 404, errMsg := some "Session not found or expired" }, st)
    | some _pending =>
      match signIn with
      | .ok user =>
        ({ statusCode := 200, success := true, sessionId := some (sessionId.getD "") },
         st.promote (sessionId.getD "") { user := user, connectedAt := now })
      | .sessionPasswordNeeded =>
        if jsFalsy password then
          ({ statusCode := 400, errMsg := some "Two-factor authentication required",
             requires2FA := true }, st)
        else
          ({ statusCode := 400,
             errMsg := some "2FA is not fully supported in this version" }, st)
      | .phoneCodeInvalid =>
        ({ statusCode := 500, errMsg := some "Invalid verification code" }, st)
      | .phoneCodeExpired =>
        ({ statusCode := 500,
           errMsg := some "Verification code has expired. Please request a new one." }, st)
      | .otherError m =>
        ({ statusCode := 500, errMsg := some ("Failed to verify code: " ++ m) }, st)

/-- src/unnamed/part_000 lines 299-325, GET /api/session/:sessionId: 404
when the live entry is absent; otherwise probe the connection with getMe
(oracle probeOk).  A failing probe deletes the live entry and replies 404
Session disconnected. -/
def sessionStatus (st : ServerState) (sid : SessionId) (probeOk : Bool) :
    Response × ServerState :=
  match st.activeClients.lookup sid with
  | none => ({ statusCode := 404, errMsg := some "Session not found" }, st)
  | some _cd =>
    if probeOk then
      ({ statusCode := 200, success := true, isConnected := true }, st)
    else
      ({ statusCode := 404, errMsg := some "Session disconnected" },
       { st with activeClients := mapDelete sid st.activeClients })

end Part000

namespace ServerJs

/-- src/server.js lines 49-114, POST /api/start-auth: this variant only
checks the three fields for presence (no numeric apiId validation), then
makes the outbound auth.sendCode call and inserts the PendingAuth on
success.  parseInt(apiId) is stored even when it is NaN. -/
def startAuth (st : ServerState) (phone apiId apiHash : Option String)
    (freshSid : SessionId) (now : Nat) (upstream : CodeRequestResult) :
    Response × ServerState × Bool :=
  if jsFalsy phone || jsFalsy apiId || jsFalsy apiHash then
    ({ statusCode := 400, errMsg := some "Missing required fields" }, st, false)
  else
    match upstream with
    | .ok pch =>
      ({ statusCode := 200, success := true, sessionId := some freshSid },
       { st with activeSessions :=
           (mapSet freshSid
             (PendingAuth.mk (phone.getD "") (jsParseInt (apiId.getD ""))
               (apiHash.getD "") pch now true) st.activeSessions) },
       true)
    | .err m =>
      ({ statusCode := 500, errMsg := some ("Failed to send code: " ++ m) }, st, true)

/-- src/server.js lines 198-277, startUserBot: after registering the poll
interval it executes activeClients.get(sessionId).pollInterval = pollInterval.
The verify-code handler only calls activeClients.set after startUserBot
returns, so at this point the lookup yields undefined and the statement
throws a TypeError; the error propagates through the awaited call into the
catch block of verify-code. -/
def startUserBotResult (st : ServerState) (sid : SessionId) : Except String Unit :=
  match st.activeClients.lookup sid with
  | none => .error "Cannot set properties of undefined"
  | some _ => .ok ()

/-- src/server.js lines 117-195, POST /api/verify-code: reject a missing
field, look up the pending entry (404 when absent), attempt sign-in plus
identity resolution (oracle), then run startUserBot, store the live entry
and delete the pending one.  This variant reads no password from the body
and maps SESSION_PASSWORD_NEEDED to a plain 500 error message. -/
def verifyCode (st : ServerState) (sessionId code : Option String)
    (signIn : SignInResult) (now : Nat) : Response × ServerState :=
  if jsFalsy sessionId || jsFalsy code then
    ({ statusCode := 400, errMsg := some "Missing session ID or code" }, st)
  else
    match st.activeSessions.lookup (sessionId.getD "") with
    | none =>
      ({ statusCode := 404, errMsg := some "Session not found. Please start over." }, st)
    | some _pending =>
      match signIn with
      | .ok user =>
        match startUserBotResult st (sessionId.getD "") with
        | .error m =>
          ({ statusCode := 500, errMsg := some ("Failed to verify code: " ++ m) }, st)
        | .ok _ =>
          ({ statusCode := 200, success := true, sessionId := some (sessionId.getD "") },
           st.promote (sessionId.getD "") { user := user, connectedAt := now })
      | .phoneCodeInvalid =>
        ({ statusCode := 500,
           errMsg := some "Invalid verification code. Please check and try again." }, st)
      | .phoneCodeExpired =>
        ({ statusCode := 500, errMsg := some "Code expired. Please request a new one." }, st)
      | .sessionPasswordNeeded =>
        ({ statusCode := 500,
           errMsg := some "Two-factor authentication is required. Please use account without 2FA for this demo." },
         st)
      | .otherError m =>
        ({ statusCode := 500, errMsg := some ("Failed to verify code: " ++ m) }, st)

/-- src/server.js lines 280-300, GET /api/session/:sessionId: 404 when the
live entry is absent; otherwise probe the connection with help.getConfig
(oracle probeOk).  A failing probe clears the poll interval, deletes the
live entry and replies 404 Session disconnected. -/
def sessionStatus (st : ServerState) (sid : SessionId) (probeOk : Bool) :
    Response × ServerState :=
  match st.activeClients.lookup sid with
  | none => ({ statusCode := 404, errMsg := some "Session not found" }, st)
  | some _cd =>
    if probeOk then
      ({ statusCode := 200, success := true, isConnected := true }, st)
    else
      ({ statusCode := 404, errMsg := some "Session disconnected" },
       { st with activeClients := mapDelete sid st.activeClients })

end ServerJs

/-- TTL used by the hourly cleanup sweeps: 60 * 60 * 1000 milliseconds. -/
def ttlMs : Nat := 60 * 60 * 1000

/-- The sweep condition now - sessionData.createdAt > 60 * 60 * 1000,
with JavaScript number subtraction modelled on the integers. -/
def isExpired (now : Nat) (p : PendingAuth) : Bool :=
  (ttlMs : Int) < (now : Int) - (p.createdAt : Int)

namespace Part001

/-- src/unnamed/part_001 lines 115-210, POST /api/verify-code: like the
part_000 handler, but with a real second-factor path: on
SESSION_PASSWORD_NEEDED with a password it calls signInWithPassword
(oracle pw) and promotes on success. -/
def verifyCode (st : ServerState) (sessionId code password : Option String)
    (signIn : SignInResult) (pw : PasswordResult) (now : Nat) :
    Response × ServerState :=
  if jsFalsy sessionId || jsFalsy code then
    ({ statusCode := 400, errMsg := some "Missing session ID or code" }, st)
  else
    match st.activeSessions.lookup (sessionId.getD "") with
    | none => ({ statusCode := 404, errMsg := some "Session not found or expired" }, st)
    | some _pending =>
      match signIn with
      | .ok user =>
        ({ statusCode := 200, success := true, sessionId := some (sessionId.getD "") },
         st.promote (sessionId.getD "") { user := user, connectedAt := now })
      | .sessionPasswordNeeded =>
        if jsFalsy password then
          ({ statusCode := 400, errMsg := some "Two-factor authentication required",
             requires2FA := true }, st)
        else
          match pw with
          | .ok user =>
            ({ statusCode := 200, success := true, sessionId := some (sessionId.getD "") },
             st.promote (sessionId.getD "") { user := user, connectedAt := now })
          | .err m =>
            ({ statusCode := 500, errMsg := some ("Failed to verify code: " ++ m) }, st)
      | .phoneCodeInvalid =>
        ({ statusCode := 500, errMsg := some "Invalid verification code" }, st)
      | .phoneCodeExpired =>
        ({ statusCode := 500,
           errMsg := some "Verification code has expired. Please request a new one." }, st)
      | .otherError m =>
        ({ statusCode := 500, errMsg := some ("Failed to verify code: " ++ m) }, st)

/-- src/unnamed/part_001 lines 370-388, the hourly cron sweep: every
pending entry with now - createdAt > one hour has its client disconnected
(when one is stored) and is deleted; younger entries are untouched.  The
second component lists the session ids whose client was disconnected. -/
def reap (now : Nat) (st : ServerState) : ServerState × List SessionId :=
  ({ st with activeSessions := st.activeSessions.filter (fun e => !(isExpired now e.2)) },
   (st.activeSessions.filter (fun e => isExpired now e.2 && e.2.hasClient)).map (fun e => e.1))

end Part001

namespace ServerJs

/-- src/server.js lines 340-354, the hourly cron sweep: every pending
entry with now - createdAt > one hour is deleted.  This variant never
touches the client stored in the entry, so no connection is closed: the
second component (disconnected session ids) is always empty. -/
def reap (now : Nat) (st : ServerState) : ServerState × List SessionId :=
  ({ st with activeSessions := st.activeSessions.filter (fun e => !(isExpired now e.2)) },
   [])

end ServerJs

/-- The fixed command set of the dispatchers. -/
inductive Command where
  | menu
  | ping
  | status
  | uptime
  | info
  | chats
  | unknown
deriving Repr, DecidableEq

/-- Removal of leading and trailing whitespace from a character list. -/
def jsTrimList (cs : List Char) : List Char :=
  ((cs.dropWhile isJsSpace).reverse.dropWhile isJsSpace).reverse

/-- The normalization of the main dispatchers:
message.text.toLowerCase().trim().  Lowercasing is mapped over the
characters and the trim removes leading and trailing whitespace. -/
def jsNormalize (s : String) : String :=
  String.mk (jsTrimList (s.toList.map Char.toLower))

namespace Part003

/-- src/unnamed/part_003 lines 126-243, POST /api/verify-code: sign-in is
attempted through client.start with an invoke fallback (collapsed into the
signIn oracle); on SESSION_PASSWORD_NEEDED without a password it replies
400 with the requires2FA flag.  With a password the handler reaches
new Api.auth.CheckPassword at line 187, but the binding const Api
(line 163) is block-scoped to the inner try and is not in scope in the
sibling catch block, so evaluating that expression deterministically
throws a ReferenceError before any outbound call; the error propagates to
the outer catch, matches none of the classified cases, and answers 500
with the stores untouched.  The password path therefore never promotes
and needs no outbound oracle. -/
def verifyCode (st : ServerState) (sessionId code password : Option String)
    (signIn : SignInResult) (now : Nat) :
    Response × ServerState :=
  if jsFalsy sessionId || jsFalsy code then
    ({ statusCode := 400, errMsg := some "Missing session ID or verification code" }, st)
  else
    match st.activeSessions.lookup (sessionId.getD "") with
    | none =>
      ({ statusCode := 404,
         errMsg := some "Session not found or expired. Please start over." }, st)
    | some _pending =>
      match signIn with
      | .ok user =>
        ({ statusCode := 200, success := true, sessionId := some (sessionId.getD "") },
         st.promote (sessionId.getD "") { user := user, connectedAt := now })
      | .sessionPasswordNeeded =>
        if jsFalsy password then
          ({ statusCode := 400,
             errMsg := some "Two-factor authentication is enabled on your account. Please enter your 2FA password.",
             requires2FA := true }, st)
        else
          ({ statusCode := 500,
             errMsg := some "Failed to verify code: Api is not defined" }, st)
      | .phoneCodeInvalid =>
        ({ statusCode := 500,
           errMsg := some "Invalid verification code. Please check the code and try again." }, st)
      | .phoneCodeExpired =>
        ({ statusCode := 500,
           errMsg := some "Verification code has expired. Please request a new code." }, st)
      | .otherError m =>
        ({ statusCode := 500, errMsg := some ("Failed to verify code: " ++ m) }, st)

/-- src/unnamed/part_003 lines 255-336, the dispatcher match on
command = message.text.toLowerCase().trim(). -/
def matchCommand (text : String) : Command :=
  let command := jsNormalize text
  if command == "/menu" || command == "/start" then .menu
  else if command == "/ping" then .ping
  else if command == "/status" then .status
  else if command == "/uptime" then .uptime
  else if command == "/info" then .info
  else .unknown

/-- src/unnamed/part_003 lines 283-294, the ping handler latency:
start = Date.now() before the send, latency = Date.now() - start after
it. -/
def pingLatencyMs (start finish : Nat) : Int :=
  (finish : Int) - (start : Int)

end Part003

namespace Part000Minimal

/-- src/unnamed/part_000 lines 516-563 (the minimal variant embedded in
that file), the dispatcher match: it only reacts to texts that start with
a slash, compared verbatim against the commands, with no lowercasing and
no trimming.  The startsWith slash guard is the test on the first
character. -/
def startsWithSlash (text : String) : Bool :=
  match text.toList with
  | c :: _ => c == '/'
  | [] => false

/-- The verbatim command match of the minimal variant. -/
def matchCommand (text : String) : Command :=
  if startsWithSlash text then
    if text == "/menu" then .menu
    else if text == "/ping" then .ping
    else if text == "/status" then .status
    else .unknown
  else .unknown

end Part000Minimal

/-- Outcome of the outbound sends a command handler performs for one
inbound event. -/
inductive SendResult where
  | ok
  | failed (msg : String)
deriving Repr, DecidableEq

/-- Bool view of a handler invocation result. -/
def exceptOk : Except String Unit → Bool
  | .ok _ => true
  | .error _ => false

namespace Part003

/-- The body of the part_003 event handler (inside its try): events
without text return immediately, unmatched text takes no branch, and a
matched command awaits sends whose failure throws. -/
def handlerBody (text : Option String) (send : SendResult) : Except String Unit :=
  match text with
  | none => .ok ()
  | some t =>
    match matchCommand t with
    | .unknown => .ok ()
    | _ =>
      match send with
      | .ok => .ok ()
      | .failed m => .error m

/-- src/unnamed/part_003 lines 250-358: the whole handler body is wrapped
in try/catch; a thrown error is logged (second component) and the handler
returns normally. -/
def handleEvent (text : Option String) (send : SendResult) :
    Except String Unit × List String :=
  match handlerBody text send with
  | .ok _ => (.ok (), [])
  | .error e => (.ok (), [e])

end Part003

namespace Part000Minimal

/-- The body of the minimal-variant event handler: texts starting with a
slash are compared verbatim; a matched command awaits sends whose failure
throws. -/
def handlerBody (text : Option String) (send : SendResult) : Except String Unit :=
  match text with
  | none => .ok ()
  | some t =>
    match matchCommand t with
    | .unknown => .ok ()
    | _ =>
      match send with
      | .ok => .ok ()
      | .failed m => .error m

/-- src/unnamed/part_000 lines 520-563: this handler has no try/catch, so
a thrown error escapes the handler invocation and nothing is logged by
it. -/
def handleEvent (text : Option String) (send : SendResult) :
    Except String Unit × List String :=
  (handlerBody text send, [])

end Part000Minimal

/-- Worst-case event delivery around a registered handler: events are
delivered in order and an error escaping a handler invocation tears the
delivery down, so later events are not handled.  Returns how many events
were handled.  A handler that catches internally therefore handles every
event of the list. -/
def runEvents (handler : Option String → SendResult → Except String Unit × List String) :
    List (Option String × SendResult) → Nat
  | [] => 0
  | e :: es =>
    match (handler e.1 e.2).1 with
    | .ok _ => runEvents handler es + 1
    | .error _ => 1

/-- A concrete identity used by the witnesses. -/
def sampleUser : UserInfo :=
  { userId := 7, username := "user7", firstName := "Fred" }

/-- A concrete pending entry used by the witnesses. -/
def samplePending : PendingAuth :=
  { phone := "+15551234567", apiId := some 12345, apiHash := "abchash",
    phoneCodeHash := "pch1", createdAt := 0, hasClient := true }

/-- A concrete store state with one pending session s1, used by the
witnesses. -/
def sampleState : ServerState :=
  { activeSessions := [("s1", samplePending)], activeClients := [] }

/-- A concrete store state with one live session s2, used by the
witnesses. -/
def sampleLiveState : ServerState :=
  { activeSessions := [],
    activeClients := [("s2", { user := sampleUser, connectedAt := 3 })] }

theorem lookup_mapSet_self {α : Type} (k : SessionId) (v : α) (m : List (SessionId × α)) :
    (mapSet k v m).lookup k = some v := by
  induction m with
  | nil => simp [mapSet, List.lookup]
  | cons e es ih =>
    by_cases h : e.1 = k
    · simp [mapSet, h, List.lookup]
    · have hk : (k == e.1) = false := beq_eq_false_iff_ne.mpr (fun hh => h hh.symm)
      have he : (e.1 == k) = false := beq_eq_false_iff_ne.mpr h
      simp [mapSet, he, List.lookup, hk, ih]
theorem lookup_mapSet_ne {α : Type} {k q : SessionId} (h : q ≠ k) (v : α)
    (m : List (SessionId × α)) : (mapSet k v m).lookup q = m.lookup q := by
  induction m with
  | nil => simp [mapSet, List.lookup, beq_eq_false_iff_ne.mpr h]
  | cons e es ih =>
    by_cases he : e.1 = k
    · have hq : (q == k) = false := beq_eq_false_iff_ne.mpr h
      have hq2 : (q == e.1) = false := by
        rw [he]; exact hq
      simp [mapSet, he, List.lookup, hq, hq2]
    · have heb : (e.1 == k) = false := beq_eq_false_iff_ne.mpr he
      simp [mapSet, heb, List.lookup, ih]
theorem lookup_mapDelete_self {α : Type} (k : SessionId) (m : List (SessionId × α)) :
    (mapDelete k m).lookup k = none := by
  induction m with
  | nil => simp [mapDelete, List.lookup]
  | cons e es ih =>
    by_cases h : e.1 = k
    · simpa [mapDelete, h] using ih
    · have heb : (e.1 != k) = true := bne_iff_ne.mpr h
      have hk : (k == e.1) = false := beq_eq_false_iff_ne.mpr (fun hh => h hh.symm)
      simpa [mapDelete, heb, List.lookup, hk] using ih
theorem lookup_mapDelete_ne {α : Type} {k q : SessionId} (h : q ≠ k)
    (m : List (SessionId × α)) : (mapDelete k m).lookup q = m.lookup q := by
  induction m with
  | nil => simp [mapDelete, List.lookup]
  | cons e es ih =>
    simp only [mapDelete] at ih
    by_cases he : e.1 = k
    · have hq : (q == k) = false := beq_eq_false_iff_ne.mpr h
      simp [mapDelete, he, List.lookup, hq, ih]
    · have heb : (e.1 != k) = true := bne_iff_ne.mpr he
      by_cases hqe : q = e.1
      · simp [mapDelete, heb, List.lookup, hqe]
      · have hq : (q == e.1) = false := beq_eq_false_iff_ne.mpr hqe
        simp [mapDelete, heb, List.lookup, hq, ih]
theorem mem_mapDelete {α : Type} {e : SessionId × α} {k : SessionId}
    {m : List (SessionId × α)} : e ∈ mapDelete k m ↔ e ∈ m ∧ e.1 ≠ k := by
  simp [mapDelete, List.mem_filter]
theorem storeInvariant_promote {st : ServerState} (sid : SessionId) (ls : LiveSession)
    (h : StoreInvariant st) : StoreInvariant (st.promote sid ls) := by
  intro e he
  have hmem : e ∈ st.activeSessions ∧ e.1 ≠ sid := mem_mapDelete.mp he
  have := h e hmem.1
  calc ((st.promote sid ls).activeClients).lookup e.1
      = (st.activeClients).lookup e.1 := lookup_mapSet_ne hmem.2 ls st.activeClients
    _ = none := this

/-- Claim C1: in the part_000 variant, promotion is exactly-once: the
first successful verify-code call on a pending session answers 200,
creates the live entry and deletes the pending entry, and a second call
with the same session id and the same valid code answers 404 and leaves
both stores unchanged.  In the server.js variant, evaluated at the same
kind of input, even the first successful call answers 500 and changes
neither store, because startUserBot dereferences the not-yet-inserted
activeClients entry; the claim fails on that variant although its own
success path (unreachable) shows promotion was intended. -/
theorem c1_exactly_once_promotion
    (st : ServerState) (sid code : String) (pw : Option String) (user : UserInfo)
    (now now2 : Nat) (p : PendingAuth)
    (hsid : sid ≠ "") (hcode : code ≠ "")
    (hp : st.activeSessions.lookup sid = some p) :
    ((Part000.verifyCode st (some sid) (some code) pw (.ok user) now).1.statusCode = 200
      ∧ (Part000.verifyCode st (some sid) (some code) pw
          (.ok user) now).2.activeSessions.lookup sid = none
      ∧ (Part000.verifyCode st (some sid) (some code) pw
          (.ok user) now).2.activeClients.lookup sid
          = some { user := user, connectedAt := now }
      ∧ (Part000.verifyCode (Part000.verifyCode st (some sid) (some code) pw (.ok user) now).2
          (some sid) (some code) pw (.ok user) now2).1.statusCode = 404
      ∧ (Part000.verifyCode (Part000.verifyCode st (some sid) (some code) pw (.ok user) now).2
          (some sid) (some code) pw (.ok user) now2).2
          = (Part000.verifyCode st (some sid) (some code) pw (.ok user) now).2)
    ∧ ((ServerJs.verifyCode sampleState (some "s1") (some "12345")
          (.ok sampleUser) 5).1.statusCode = 500
      ∧ (ServerJs.verifyCode sampleState (some "s1") (some "12345")
          (.ok sampleUser) 5).2 = sampleState) := by
  have hfal : (jsFalsy (some sid) || jsFalsy (some code)) = false := by
    simp [jsFalsy, hsid, hcode]
  have hstep : Part000.verifyCode st (some sid) (some code) pw (.ok user) now
      = ({ statusCode := 200, success := true, sessionId := some sid },
         st.promote sid { user := user, connectedAt := now }) := by
    simp [Part000.verifyCode, hfal, hp]
  have hnone : (st.promote sid { user := user, connectedAt := now
      }).activeSessions.lookup sid = none := by
    simp [ServerState.promote, ServerState.deletePending, ServerState.insertLive,
      lookup_mapDelete_self]
  refine ⟨⟨?_, ?_, ?_, ?_, ?_⟩, by decide, by decide⟩
  · rw [hstep]
  · rw [hstep]
    exact hnone
  · rw [hstep]
    simp [ServerState.promote, ServerState.deletePending, ServerState.insertLive,
      lookup_mapSet_self]
  · rw [hstep]
    simp [Part000.verifyCode, hfal, hnone]
  · rw [hstep]
    simp [Part000.verifyCode, hfal, hnone]

/-- Witness for C1 at the concrete sample state. -/
theorem c1_exactly_once_promotion_witness :
    ((Part000.verifyCode sampleState (some "s1") (some "12345") none
        (.ok sampleUser) 5).1.statusCode = 200
      ∧ (Part000.verifyCode sampleState (some "s1") (some "12345") none
          (.ok sampleUser) 5).2.activeSessions.lookup "s1" = none
      ∧ (Part000.verifyCode sampleState (some "s1") (some "12345") none
          (.ok sampleUser) 5).2.activeClients.lookup "s1"
          = some { user := sampleUser, connectedAt := 5 }
      ∧ (Part000.verifyCode
          (Part000.verifyCode sampleState (some "s1") (some "12345") none
            (.ok sampleUser) 5).2
          (some "s1") (some "12345") none (.ok sampleUser) 6).1.statusCode = 404
      ∧ (Part000.verifyCode
          (Part000.verifyCode sampleState (some "s1") (some "12345") none
            (.ok sampleUser) 5).2
          (some "s1") (some "12345") none (.ok sampleUser) 6).2
          = (Part000.verifyCode sampleState (some "s1") (some "12345") none
              (.ok sampleUser) 5).2)
    ∧ ((ServerJs.verifyCode sampleState (some "s1") (some "12345")
          (.ok sampleUser) 5).1.statusCode = 500
      ∧ (ServerJs.verifyCode sampleState (some "s1") (some "12345")
          (.ok sampleUser) 5).2 = sampleState) :=
  c1_exactly_once_promotion sampleState "s1" "12345" none sampleUser 5 6 samplePending
    (by decide) (by decide) (by decide)

/-- Claim C2: promotion never leaves a session id in both stores at an
observable point: it preserves the cross-store invariant (also through the
whole part_001 and part_003 verify-code handlers), it is definitionally
the insert-into-live step followed by the delete-from-pending step (never
the reverse), and in the intermediate state between the two steps the
session id is present in the live store, hence never absent from both.
The two steps are consecutive synchronous statements, so the intermediate
state is not observable by any other handler. -/
theorem c2_promotion_invariant :
    (∀ (st : ServerState) (sid : SessionId) (ls : LiveSession),
      StoreInvariant st → StoreInvariant (st.promote sid ls))
    ∧ (∀ (st : ServerState) (s c p : Option String) (si : SignInResult)
        (pw : PasswordResult) (now : Nat),
      StoreInvariant st → StoreInvariant (Part001.verifyCode st s c p si pw now).2)
    ∧ (∀ (st : ServerState) (s c p : Option String) (si : SignInResult) (now : Nat),
      StoreInvariant st → StoreInvariant (Part003.verifyCode st s c p si now).2)
    ∧ (∀ (st : ServerState) (sid : SessionId) (ls : LiveSession),
      st.promote sid ls = (st.insertLive sid ls).deletePending sid)
    ∧ (∀ (st : ServerState) (sid : SessionId) (ls : LiveSession),
      ((st.insertLive sid ls).activeClients).lookup sid = some ls) := by
  refine ⟨fun st sid ls h => storeInvariant_promote sid ls h, ?_, ?_, fun _ _ _ => rfl, ?_⟩
  · intro st s c p si pw now h
    unfold Part001.verifyCode
    repeat' split
    all_goals first
      | exact h
      | exact storeInvariant_promote _ _ h
  · intro st s c p si now h
    unfold Part003.verifyCode
    repeat' split
    all_goals first
      | exact h
      | exact storeInvariant_promote _ _ h
  · intro st sid ls
    simp [ServerState.insertLive, lookup_mapSet_self]

/-- Witness for C2 at the concrete sample state. -/
theorem c2_promotion_invariant_witness :
    StoreInvariant (sampleState.promote "s1" { user := sampleUser, connectedAt := 5 })
    ∧ StoreInvariant (Part001.verifyCode sampleState (some "s1") (some "12345") none
        (.ok sampleUser) (.ok sampleUser) 5).2
    ∧ StoreInvariant (Part003.verifyCode sampleState (some "s1") (some "12345") none
        (.ok sampleUser) 5).2
    ∧ sampleState.promote "s1" { user := sampleUser, connectedAt := 5 }
        = (sampleState.insertLive "s1"
            { user := sampleUser, connectedAt := 5 }).deletePending "s1"
    ∧ ((sampleState.insertLive "s1"
          { user := sampleUser, connectedAt := 5 }).activeClients).lookup "s1"
        = some { user := sampleUser, connectedAt := 5 } :=
  ⟨c2_promotion_invariant.1 sampleState "s1" { user := sampleUser, connectedAt := 5 }
      (by decide),
   c2_promotion_invariant.2.1 sampleState (some "s1") (some "12345") none
      (.ok sampleUser) (.ok sampleUser) 5 (by decide),
   c2_promotion_invariant.2.2.1 sampleState (some "s1") (some "12345") none
      (.ok sampleUser) 5 (by decide),
   c2_promotion_invariant.2.2.2.1 sampleState "s1" { user := sampleUser, connectedAt := 5 },
   c2_promotion_invariant.2.2.2.2 sampleState "s1" { user := sampleUser, connectedAt := 5 }⟩

/-- Claim C3: in the part_000 variant, a verify-code call whose sign-in
fails with an invalid code answers 500 and leaves the stores untouched (in
particular the pending entry is kept), and a subsequent call with the
correct code still succeeds, promotes the session and removes the pending
entry.  In the server.js variant, evaluated at the same kind of input, the
invalid-code call also keeps the pending entry, but the retry with the
correct code answers 500 and never promotes, because startUserBot
dereferences the not-yet-inserted activeClients entry. -/
theorem c3_invalid_code_retry
    (st : ServerState) (sid code code2 : String) (pw : Option String) (user : UserInfo)
    (now now2 : Nat) (p : PendingAuth)
    (hsid : sid ≠ "") (hcode : code ≠ "") (hcode2 : code2 ≠ "")
    (hp : st.activeSessions.lookup sid = some p) :
    ((Part000.verifyCode st (some sid) (some code) pw .phoneCodeInvalid now).1.statusCode = 500
      ∧ (Part000.verifyCode st (some sid) (some code) pw .phoneCodeInvalid now).1.errMsg
          = some "Invalid verification code"
      ∧ (Part000.verifyCode st (some sid) (some code) pw .phoneCodeInvalid now).2 = st
      ∧ (Part000.verifyCode st (some sid) (some code2) pw (.ok user) now2).1.statusCode = 200
      ∧ (Part000.verifyCode st (some sid) (some code2) pw
          (.ok user) now2).2.activeSessions.lookup sid = none
      ∧ (Part000.verifyCode st (some sid) (some code2) pw
          (.ok user) now2).2.activeClients.lookup sid
          = some { user := user, connectedAt := now2 })
    ∧ ((ServerJs.verifyCode sampleState (some "s1") (some "00000")
          .phoneCodeInvalid 5).1.statusCode = 500
      ∧ (ServerJs.verifyCode sampleState (some "s1") (some "00000")
          .phoneCodeInvalid 5).2 = sampleState
      ∧ (ServerJs.verifyCode sampleState (some "s1") (some "12345")
          (.ok sampleUser) 6).1.statusCode = 500
      ∧ (ServerJs.verifyCode sampleState (some "s1") (some "12345")
          (.ok sampleUser) 6).2 = sampleState) := by
  have hfal : (jsFalsy (some sid) || jsFalsy (some code)) = false := by
    simp [jsFalsy, hsid, hcode]
  have hfal2 : (jsFalsy (some sid) || jsFalsy (some code2)) = false := by
    simp [jsFalsy, hsid, hcode2]
  refine ⟨⟨?_, ?_, ?_, ?_, ?_, ?_⟩, by decide, by decide, by decide, by decide⟩
  · simp [Part000.verifyCode, hfal, hp]
  · simp [Part000.verifyCode, hfal, hp]
  · simp [Part000.verifyCode, hfal, hp]
  · simp [Part000.verifyCode, hfal2, hp]
  · simp [Part000.verifyCode, hfal2, hp, ServerState.promote, ServerState.deletePending,
      ServerState.insertLive, lookup_mapDelete_self]
  · simp [Part000.verifyCode, hfal2, hp, ServerState.promote, ServerState.deletePending,
      ServerState.insertLive, lookup_mapSet_self]

/-- Witness for C3 at the concrete sample state. -/
theorem c3_invalid_code_retry_witness :
    ((Part000.verifyCode sampleState (some "s1") (some "00000") none
        .phoneCodeInvalid 5).1.statusCode = 500
      ∧ (Part000.verifyCode sampleState (some "s1") (some "00000") none
          .phoneCodeInvalid 5).1.errMsg = some "Invalid verification code"
      ∧ (Part000.verifyCode sampleState (some "s1") (some "00000") none
          .phoneCodeInvalid 5).2 = sampleState
      ∧ (Part000.verifyCode sampleState (some "s1") (some "12345") none
          (.ok sampleUser) 6).1.statusCode = 200
      ∧ (Part000.verifyCode sampleState (some "s1") (some "12345") none
          (.ok sampleUser) 6).2.activeSessions.lookup "s1" = none
      ∧ (Part000.verifyCode sampleState (some "s1") (some "12345") none
          (.ok sampleUser) 6).2.activeClients.lookup "s1"
          = some { user := sampleUser, connectedAt := 6 })
    ∧ ((ServerJs.verifyCode sampleState (some "s1") (some "00000")
          .phoneCodeInvalid 5).1.statusCode = 500
      ∧ (ServerJs.verifyCode sampleState (some "s1") (some "00000")
          .phoneCodeInvalid 5).2 = sampleState
      ∧ (ServerJs.verifyCode sampleState (some "s1") (some "12345")
          (.ok sampleUser) 6).1.statusCode = 500
      ∧ (ServerJs.verifyCode sampleState (some "s1") (some "12345")
          (.ok sampleUser) 6).2 = sampleState) :=
  c3_invalid_code_retry sampleState "s1" "00000" "12345" none sampleUser 5 6 samplePending
    (by decide) (by decide) (by decide) (by decide)

/-- Counterexample to claim C4 as stated: on a second-factor account
(sign-in reports SESSION_PASSWORD_NEEDED), the server.js verify-code
handler answers 500 with an opaque error string and no requires2FA flag
even without a password, not the claimed 400 with requires2FA; and a
repeated call carrying the correct password promotes in no cited variant:
part_000 answers 400 and refuses the password path, and part_003 answers
500 with the stores untouched, because the Api binding used by its
CheckPassword call is block-scoped to the inner try and out of scope in
the catch block, so that path throws a ReferenceError before any outbound
call. -/
theorem c4_counterexample :
    ((ServerJs.verifyCode sampleState (some "s1") (some "12345")
        .sessionPasswordNeeded 5).1.statusCode = 500
      ∧ (ServerJs.verifyCode sampleState (some "s1") (some "12345")
          .sessionPasswordNeeded 5).1.requires2FA = false)
    ∧ ((Part000.verifyCode sampleState (some "s1") (some "12345") (some "hunter2")
        .sessionPasswordNeeded 5).1.statusCode = 400
      ∧ (Part000.verifyCode sampleState (some "s1") (some "12345") (some "hunter2")
          .sessionPasswordNeeded 5).1.requires2FA = false
      ∧ (Part000.verifyCode sampleState (some "s1") (some "12345") (some "hunter2")
          .sessionPasswordNeeded 5).2 = sampleState)
    ∧ ((Part003.verifyCode sampleState (some "s1") (some "12345") (some "hunter2")
        .sessionPasswordNeeded 5).1.statusCode = 500
      ∧ (Part003.verifyCode sampleState (some "s1") (some "12345") (some "hunter2")
          .sessionPasswordNeeded 5).1.errMsg
          = some "Failed to verify code: Api is not defined"
      ∧ (Part003.verifyCode sampleState (some "s1") (some "12345") (some "hunter2")
          .sessionPasswordNeeded 5).2 = sampleState) := by
  decide

/-- Claim C4 as amended: on a second-factor account, the part_003 and
part_001 verify-code handlers answer a call without a password with 400
carrying the machine-readable flag requires2FA and change neither store,
so the caller can re-prompt.  A second call with the correct password
promotes the session normally only in the part_001 variant
(signInWithPassword succeeding); in part_003 the password path always
throws a ReferenceError (the Api binding is block-scoped to the inner try
and unavailable in the catch block holding the CheckPassword call) and
answers 500 with the stores untouched, part_000 rejects the password
attempt with 400, and server.js surfaces only an opaque 500 error with no
flag. -/
theorem c4_second_factor_flag
    (st : ServerState) (sid code pwd : String) (user : UserInfo) (now now2 : Nat)
    (p : PendingAuth) (pwOther : PasswordResult)
    (hsid : sid ≠ "") (hcode : code ≠ "") (hpwd : pwd ≠ "")
    (hp : st.activeSessions.lookup sid = some p) :
    ((Part003.verifyCode st (some sid) (some code) none
        .sessionPasswordNeeded now).1.statusCode = 400
      ∧ (Part003.verifyCode st (some sid) (some code) none
          .sessionPasswordNeeded now).1.requires2FA = true
      ∧ (Part003.verifyCode st (some sid) (some code) none
          .sessionPasswordNeeded now).2 = st)
    ∧ ((Part003.verifyCode st (some sid) (some code) (some pwd)
        .sessionPasswordNeeded now2).1.statusCode = 500
      ∧ (Part003.verifyCode st (some sid) (some code) (some pwd)
          .sessionPasswordNeeded now2).2 = st)
    ∧ ((Part001.verifyCode st (some sid) (some code) none
        .sessionPasswordNeeded pwOther now).1.statusCode = 400
      ∧ (Part001.verifyCode st (some sid) (some code) none
          .sessionPasswordNeeded pwOther now).1.requires2FA = true
      ∧ (Part001.verifyCode st (some sid) (some code) none
          .sessionPasswordNeeded pwOther now).2 = st)
    ∧ ((Part001.verifyCode st (some sid) (some code) (some pwd)
        .sessionPasswordNeeded (.ok user) now2).1.statusCode = 200
      ∧ (Part001.verifyCode st (some sid) (some code) (some pwd)
          .sessionPasswordNeeded (.ok user) now2).2.activeSessions.lookup sid = none
      ∧ (Part001.verifyCode st (some sid) (some code) (some pwd)
          .sessionPasswordNeeded (.ok user) now2).2.activeClients.lookup sid
          = some { user := user, connectedAt := now2 }) := by
  have hfal : (jsFalsy (some sid) || jsFalsy (some code)) = false := by
    simp [jsFalsy, hsid, hcode]
  have hpw : jsFalsy (some pwd) = false := by
    simp [jsFalsy, hpwd]
  have hnonefal : jsFalsy (none : Option String) = true := by
    decide
  refine ⟨⟨?_, ?_, ?_⟩, ⟨?_, ?_⟩, ⟨?_, ?_, ?_⟩, ?_, ?_, ?_⟩
  · simp [Part003.verifyCode, hfal, hp, hnonefal]
  · simp [Part003.verifyCode, hfal, hp, hnonefal]
  · simp [Part003.verifyCode, hfal, hp, hnonefal]
  · simp [Part003.verifyCode, hfal, hp, hpw]
  · simp [Part003.verifyCode, hfal, hp, hpw]
  · simp [Part001.verifyCode, hfal, hp, hnonefal]
  · simp [Part001.verifyCode, hfal, hp, hnonefal]
  · simp [Part001.verifyCode, hfal, hp, hnonefal]
  · simp [Part001.verifyCode, hfal, hp, hpw]
  · simp [Part001.verifyCode, hfal, hp, hpw, ServerState.promote,
      ServerState.deletePending, ServerState.insertLive, lookup_mapDelete_self]
  · simp [Part001.verifyCode, hfal, hp, hpw, ServerState.promote,
      ServerState.deletePending, ServerState.insertLive, lookup_mapSet_self]

/-- Witness for the amended C4 at the concrete sample state. -/
theorem c4_second_factor_flag_witness :
    ((Part003.verifyCode sampleState (some "s1") (some "12345") none
        .sessionPasswordNeeded 5).1.statusCode = 400
      ∧ (Part003.verifyCode sampleState (some "s1") (some "12345") none
          .sessionPasswordNeeded 5).1.requires2FA = true
      ∧ (Part003.verifyCode sampleState (some "s1") (some "12345") none
          .sessionPasswordNeeded 5).2 = sampleState)
    ∧ ((Part003.verifyCode sampleState (some "s1") (some "12345") (some "hunter2")
        .sessionPasswordNeeded 6).1.statusCode = 500
      ∧ (Part003.verifyCode sampleState (some "s1") (some "12345") (some "hunter2")
          .sessionPasswordNeeded 6).2 = sampleState)
    ∧ ((Part001.verifyCode sampleState (some "s1") (some "12345") none
        .sessionPasswordNeeded (.ok sampleUser) 5).1.statusCode = 400
      ∧ (Part001.verifyCode sampleState (some "s1") (some "12345") none
          .sessionPasswordNeeded (.ok sampleUser) 5).1.requires2FA = true
      ∧ (Part001.verifyCode sampleState (some "s1") (some "12345") none
          .sessionPasswordNeeded (.ok sampleUser) 5).2 = sampleState)
    ∧ ((Part001.verifyCode sampleState (some "s1") (some "12345") (some "hunter2")
        .sessionPasswordNeeded (.ok sampleUser) 6).1.statusCode = 200
      ∧ (Part001.verifyCode sampleState (some "s1") (some "12345") (some "hunter2")
          .sessionPasswordNeeded (.ok sampleUser) 6).2.activeSessions.lookup "s1" = none
      ∧ (Part001.verifyCode sampleState (some "s1") (some "12345") (some "hunter2")
          .sessionPasswordNeeded (.ok sampleUser) 6).2.activeClients.lookup "s1"
          = some { user := sampleUser, connectedAt := 6 }) :=
  c4_second_factor_flag sampleState "s1" "12345" "hunter2" sampleUser 5 6 samplePending
    (.ok sampleUser) (by decide) (by decide) (by decide) (by decide)

/-- Counterexample to claim C5 as stated: the server.js sweep removes an
expired pending entry that has a stored client without closing its
connection first: the entry (created at T = 0, swept at T + 61 minutes,
client present) is gone from the store, yet the list of disconnected
clients is empty. -/
theorem c5_counterexample :
    (ServerJs.reap 3660000 sampleState).1.activeSessions.lookup "s1" = none
    ∧ samplePending.hasClient = true
    ∧ (ServerJs.reap 3660000 sampleState).2 = [] := by
  decide

/-- Claim C5 as amended: the part_001 sweep (the cited cron handler that
does close connections) removes exactly the pending entries whose age
exceeds the one-hour TTL, closes the connection of every removed entry
that has one, and does not touch the live store; concretely an entry
created at T = 0 is gone after a sweep at T + 61 minutes and an entry
created at T + 59 minutes survives a sweep at T + 60 minutes.  The
server.js sweep removes the same entries but never closes their
connections. -/
theorem c5_reaper_ttl :
    (∀ (now : Nat) (st : ServerState) (e : SessionId × PendingAuth),
      e ∈ (Part001.reap now st).1.activeSessions
        ↔ (e ∈ st.activeSessions ∧ isExpired now e.2 = false))
    ∧ (∀ (now : Nat) (st : ServerState) (e : SessionId × PendingAuth),
      e ∈ st.activeSessions → isExpired now e.2 = true → e.2.hasClient = true →
        e.1 ∈ (Part001.reap now st).2)
    ∧ (∀ (now : Nat) (st : ServerState),
      (Part001.reap now st).1.activeClients = st.activeClients)
    ∧ (Part001.reap 3660000 sampleState).1.activeSessions.lookup "s1" = none
    ∧ (Part001.reap 3600000
        { activeSessions := [("s1", { samplePending with createdAt := 3540000 })],
          activeClients := [] }).1.activeSessions.lookup "s1"
        = some { samplePending with createdAt := 3540000 }
    ∧ (Part001.reap 3660000 sampleState).2 = ["s1"] := by
  refine ⟨?_, ?_, fun _ _ => rfl, by decide, by decide, by decide⟩
  · intro now st e
    simp [Part001.reap, List.mem_filter]
  · intro now st e he hexp hcl
    simp only [Part001.reap, List.mem_map]
    exact ⟨e, List.mem_filter.mpr ⟨he, by simp [hexp, hcl]⟩, rfl⟩

/-- Witness for the amended C5 at the concrete sample state. -/
theorem c5_reaper_ttl_witness :
    ("s1", samplePending) ∈ (Part001.reap 3600000 sampleState).1.activeSessions
    ∧ "s1" ∈ (Part001.reap 3660000 sampleState).2 :=
  ⟨(c5_reaper_ttl.1 3600000 sampleState ("s1", samplePending)).mpr ⟨by decide, by decide⟩,
   c5_reaper_ttl.2.1 3660000 sampleState ("s1", samplePending)
     (by decide) (by decide) (by decide)⟩

/-- Claim C6: in the part_000 and server.js variants, a status check on a
live session whose liveness probe fails answers 404 (reported as
disconnected, not connected), deletes the live entry as a side effect, and
every subsequent status check on the same session id answers 404 Session
not found and changes nothing. -/
theorem c6_liveness_eviction
    (st : ServerState) (sid : SessionId) (cd : LiveSession)
    (hc : st.activeClients.lookup sid = some cd) :
    ((Part000.sessionStatus st sid false).1.statusCode = 404
      ∧ (Part000.sessionStatus st sid false).1.isConnected = false
      ∧ (Part000.sessionStatus st sid false).1.errMsg = some "Session disconnected"
      ∧ (Part000.sessionStatus st sid false).2.activeClients.lookup sid = none
      ∧ (∀ probe : Bool,
          (Part000.sessionStatus (Part000.sessionStatus st sid false).2 sid
            probe).1.statusCode = 404
          ∧ (Part000.sessionStatus (Part000.sessionStatus st sid false).2 sid
              probe).1.errMsg = some "Session not found"
          ∧ (Part000.sessionStatus (Part000.sessionStatus st sid false).2 sid probe).2
              = (Part000.sessionStatus st sid false).2))
    ∧ ((ServerJs.sessionStatus st sid false).1.statusCode = 404
      ∧ (ServerJs.sessionStatus st sid false).1.isConnected = false
      ∧ (ServerJs.sessionStatus st sid false).2.activeClients.lookup sid = none
      ∧ (∀ probe : Bool,
          (ServerJs.sessionStatus (ServerJs.sessionStatus st sid false).2 sid
            probe).1.statusCode = 404
          ∧ (ServerJs.sessionStatus (ServerJs.sessionStatus st sid false).2 sid probe).2
              = (ServerJs.sessionStatus st sid false).2)) := by
  have h0 : Part000.sessionStatus st sid false
      = ({ statusCode := 404, errMsg := some "Session disconnected" },
         { st with activeClients := mapDelete sid st.activeClients }) := by
    simp [Part000.sessionStatus, hc]
  have hj : ServerJs.sessionStatus st sid false
      = ({ statusCode := 404, errMsg := some "Session disconnected" },
         { st with activeClients := mapDelete sid st.activeClients }) := by
    simp [ServerJs.sessionStatus, hc]
  have hgone : (mapDelete sid st.activeClients).lookup sid = none :=
    lookup_mapDelete_self sid st.activeClients
  refine ⟨⟨?_, ?_, ?_, ?_, ?_⟩, ?_, ?_, ?_, ?_⟩
  · rw [h0]
  · rw [h0]
  · rw [h0]
  · rw [h0]
    exact hgone
  · intro probe
    rw [h0]
    refine ⟨?_, ?_, ?_⟩ <;> simp [Part000.sessionStatus, hgone]
  · rw [hj]
  · rw [hj]
  · rw [hj]
    exact hgone
  · intro probe
    rw [hj]
    refine ⟨?_, ?_⟩ <;> simp [ServerJs.sessionStatus, hgone]

/-- Witness for C6 at the concrete sample live state. -/
theorem c6_liveness_eviction_witness :
    ((Part000.sessionStatus sampleLiveState "s2" false).1.statusCode = 404
      ∧ (Part000.sessionStatus sampleLiveState "s2" false).1.isConnected = false
      ∧ (Part000.sessionStatus sampleLiveState "s2" false).1.errMsg
          = some "Session disconnected"
      ∧ (Part000.sessionStatus sampleLiveState "s2"
          false).2.activeClients.lookup "s2" = none
      ∧ (∀ probe : Bool,
          (Part000.sessionStatus (Part000.sessionStatus sampleLiveState "s2" false).2 "s2"
            probe).1.statusCode = 404
          ∧ (Part000.sessionStatus (Part000.sessionStatus sampleLiveState "s2" false).2 "s2"
              probe).1.errMsg = some "Session not found"
          ∧ (Part000.sessionStatus (Part000.sessionStatus sampleLiveState "s2" false).2 "s2"
              probe).2 = (Part000.sessionStatus sampleLiveState "s2" false).2))
    ∧ ((ServerJs.sessionStatus sampleLiveState "s2" false).1.statusCode = 404
      ∧ (ServerJs.sessionStatus sampleLiveState "s2" false).1.isConnected = false
      ∧ (ServerJs.sessionStatus sampleLiveState "s2"
          false).2.activeClients.lookup "s2" = none
      ∧ (∀ probe : Bool,
          (ServerJs.sessionStatus (ServerJs.sessionStatus sampleLiveState "s2" false).2 "s2"
            probe).1.statusCode = 404
          ∧ (ServerJs.sessionStatus (ServerJs.sessionStatus sampleLiveState "s2" false).2 "s2"
              probe).2 = (ServerJs.sessionStatus sampleLiveState "s2" false).2)) :=
  c6_liveness_eviction sampleLiveState "s2" { user := sampleUser, connectedAt := 3 }
    (by decide)

/-- Counterexample to claim C7 as stated: the minimal dispatcher embedded
at the end of part_000 compares message text verbatim, so neither the
padded mixed-case ping nor even the unpadded mixed-case ping is matched as
a command. -/
theorem c7_counterexample :
    Part000Minimal.matchCommand "  /PING  " = Command.unknown
    ∧ Part000Minimal.matchCommand "/PING" = Command.unknown := by
  decide

/-- Claim C7 as amended: the main dispatchers (part_003 and the other full
variants) normalize inbound text with toLowerCase().trim(), so the padded
mixed-case ping is normalized to /ping and matched, and the reported ping
latency, the difference of two wall-clock reads taken before and after the
send, is a non-negative integer whenever the clock does not go backwards
between the two reads.  The minimal variant embedded at the end of
part_000 does not normalize and fails to match such input. -/
theorem c7_normalize_ping (start finish : Nat) (h : start ≤ finish) :
    jsNormalize "  /PING  " = "/ping"
    ∧ Part003.matchCommand "  /PING  " = Command.ping
    ∧ 0 ≤ Part003.pingLatencyMs start finish := by
  refine ⟨by decide, by decide, ?_⟩
  simp only [Part003.pingLatencyMs, sub_nonneg]
  exact_mod_cast h

/-- Witness for the amended C7 at concrete clock reads. -/
theorem c7_normalize_ping_witness :
    jsNormalize "  /PING  " = "/ping"
    ∧ Part003.matchCommand "  /PING  " = Command.ping
    ∧ 0 ≤ Part003.pingLatencyMs 3 5 :=
  c7_normalize_ping 3 5 (by decide)

/-- Counterexample to claim C8 as stated: the minimal dispatcher embedded
at the end of part_000 has no try/catch around its handler, so a failing
send escapes the handler invocation (it is not caught and logged within
that event's handling), and under worst-case delivery the second event is
no longer handled. -/
theorem c8_counterexample :
    exceptOk (Part000Minimal.handleEvent (some "/ping") (.failed "send failed")).1 = false
    ∧ runEvents Part000Minimal.handleEvent
        [(some "/ping", .failed "send failed"), (some "/ping", .ok)] = 1 := by
  decide

/-- Claim C8 as amended: in the part_003 dispatcher (and the other full
variants), the whole per-event handler body is wrapped in try/catch, so
every handler failure is caught and logged within that event's handling
and never escapes the handler invocation; consequently every event of any
inbound sequence is handled, whatever the send outcomes, and the
subscription is never torn down by a handler failure.  The minimal variant
embedded at the end of part_000 lacks the try/catch. -/
theorem c8_handler_failures_contained :
    (∀ (text : Option String) (send : SendResult),
      exceptOk (Part003.handleEvent text send).1 = true)
    ∧ (∀ evts : List (Option String × SendResult),
      runEvents Part003.handleEvent evts = evts.length) := by
  have hok : ∀ (t : Option String) (s : SendResult),
      exceptOk (Part003.handleEvent t s).1 = true := by
    intro t s
    unfold Part003.handleEvent
    cases h : Part003.handlerBody t s <;> simp [exceptOk]
  refine ⟨hok, ?_⟩
  intro evts
  induction evts with
  | nil => simp [runEvents]
  | cons e es ih =>
    have hoke := hok e.1 e.2
    cases h : (Part003.handleEvent e.1 e.2).1 with
    | ok u => simp [runEvents, h, ih]
    | error m => simp [h, exceptOk] at hoke

/-- Counterexample to claim C9 as stated: the server.js start-auth handler
validates only that the three fields are present, not that apiId is
numeric: with every field non-empty and a non-numeric apiId it proceeds to
the outbound code request (third component true) and, when that call
fails, answers 500 — never the claimed 400 before any outbound call. -/
theorem c9_counterexample :
    jsParseInt "abc" = none
    ∧ (ServerJs.startAuth { activeSessions := [], activeClients := [] }
        (some "+15551234567") (some "abc") (some "abchash") "sid9" 0
        (.err "API_ID_INVALID")).1.statusCode = 500
    ∧ (ServerJs.startAuth { activeSessions := [], activeClients := [] }
        (some "+15551234567") (some "abc") (some "abchash") "sid9" 0
        (.err "API_ID_INVALID")).2.2 = true := by
  decide

/-- Claim C9 as amended: the part_000 start-auth handler (like part_001
and part_003) answers 400 with no store change and no outbound call
whenever a field is missing or empty or parseInt(apiId) is NaN; the
server.js variant performs only the presence check and passes a
non-numeric apiId through to the outbound call. -/
theorem c9_begin_auth_validation
    (st : ServerState) (phone apiId apiHash : Option String)
    (freshSid : SessionId) (now : Nat) (upstream : CodeRequestResult)
    (h : (jsFalsy phone || jsFalsy apiId || jsFalsy apiHash) = true
      ∨ (jsParseInt (apiId.getD "")).isNone = true) :
    (Part000.startAuth st phone apiId apiHash freshSid now upstream).1.statusCode = 400
    ∧ (Part000.startAuth st phone apiId apiHash freshSid now upstream).2.1 = st
    ∧ (Part000.startAuth st phone apiId apiHash freshSid now upstream).2.2 = false := by
  rcases h with h1 | h2
  · simp [Part000.startAuth, h1]
  · cases hb : (jsFalsy phone || jsFalsy apiId || jsFalsy apiHash) with
    | true => simp [Part000.startAuth, hb]
    | false => simp [Part000.startAuth, hb, h2]

/-- Witness for the amended C9 at a concrete non-numeric apiId. -/
theorem c9_begin_auth_validation_witness :
    (Part000.startAuth sampleState (some "+15551234567") (some "abc") (some "abchash")
        "sid9" 0 (.err "API_ID_INVALID")).1.statusCode = 400
    ∧ (Part000.startAuth sampleState (some "+15551234567") (some "abc") (some "abchash")
        "sid9" 0 (.err "API_ID_INVALID")).2.1 = sampleState
    ∧ (Part000.startAuth sampleState (some "+15551234567") (some "abc") (some "abchash")
        "sid9" 0 (.err "API_ID_INVALID")).2.2 = false :=
  c9_begin_auth_validation sampleState (some "+15551234567") (some "abc") (some "abchash")
    "sid9" 0 (.err "API_ID_INVALID") (Or.inr (by decide))

/-- Claim C10: in both the part_000 and server.js variants, when the
outbound code request of start-auth fails, the handler answers 500 and the
pending store is exactly as before: the insertion happens only after the
code request succeeds, so the failed session id is observable in neither
store. -/
theorem c10_start_auth_error_atomicity
    (st : ServerState) (phone apiId apiHash : String) (freshSid : SessionId)
    (now : Nat) (m : String)
    (hphone : phone ≠ "") (hapi : apiId ≠ "") (hhash : apiHash ≠ "")
    (hnum : (jsParseInt apiId).isSome = true)
    (hp : st.activeSessions.lookup freshSid = none)
    (hl : st.activeClients.lookup freshSid = none) :
    ((Part000.startAuth st (some phone) (some apiId) (some apiHash) freshSid now
        (.err m)).1.statusCode = 500
      ∧ (Part000.startAuth st (some phone) (some apiId) (some apiHash) freshSid now
          (.err m)).2.1 = st
      ∧ (Part000.startAuth st (some phone) (some apiId) (some apiHash) freshSid now
          (.err m)).2.1.activeSessions.lookup freshSid = none
      ∧ (Part000.startAuth st (some phone) (some apiId) (some apiHash) freshSid now
          (.err m)).2.1.activeClients.lookup freshSid = none)
    ∧ ((ServerJs.startAuth st (some phone) (some apiId) (some apiHash) freshSid now
        (.err m)).1.statusCode = 500
      ∧ (ServerJs.startAuth st (some phone) (some apiId) (some apiHash) freshSid now
          (.err m)).2.1 = st
      ∧ (ServerJs.startAuth st (some phone) (some apiId) (some apiHash) freshSid now
          (.err m)).2.1.activeSessions.lookup freshSid = none
      ∧ (ServerJs.startAuth st (some phone) (some apiId) (some apiHash) freshSid now
          (.err m)).2.1.activeClients.lookup freshSid = none) := by
  have hfal : (jsFalsy (some phone) || jsFalsy (some apiId) || jsFalsy (some apiHash))
      = false := by
    simp [jsFalsy, hphone, hapi, hhash]
  have hnone : (jsParseInt apiId).isNone = false := by
    rcases hj : jsParseInt apiId with _ | v
    · rw [hj] at hnum
      simp at hnum
    · simp
  refine ⟨⟨?_, ?_, ?_, ?_⟩, ?_, ?_, ?_, ?_⟩ <;>
    simp [Part000.startAuth, ServerJs.startAuth, hfal, hnone, hp, hl]

/-- Witness for C10 at a concrete failing code request. -/
theorem c10_start_auth_error_atomicity_witness :
    ((Part000.startAuth sampleState (some "+15551234567") (some "12345") (some "abchash")
        "sid9" 0 (.err "FLOOD")).1.statusCode = 500
      ∧ (Part000.startAuth sampleState (some "+15551234567") (some "12345") (some "abchash")
          "sid9" 0 (.err "FLOOD")).2.1 = sampleState
      ∧ (Part000.startAuth sampleState (some "+15551234567") (some "12345") (some "abchash")
          "sid9" 0 (.err "FLOOD")).2.1.activeSessions.lookup "sid9" = none
      ∧ (Part000.startAuth sampleState (some "+15551234567") (some "12345") (some "abchash")
          "sid9" 0 (.err "FLOOD")).2.1.activeClients.lookup "sid9" = none)
    ∧ ((ServerJs.startAuth sampleState (some "+15551234567") (some "12345") (some "abchash")
        "sid9" 0 (.err "FLOOD")).1.statusCode = 500
      ∧ (ServerJs.startAuth sampleState (some "+15551234567") (some "12345") (some "abchash")
          "sid9" 0 (.err "FLOOD")).2.1 = sampleState
      ∧ (ServerJs.startAuth sampleState (some "+15551234567") (some "12345") (some "abchash")
          "sid9" 0 (.err "FLOOD")).2.1.activeSessions.lookup "sid9" = none
      ∧ (ServerJs.startAuth sampleState (some "+15551234567") (some "12345") (some "abchash")
          "sid9" 0 (.err "FLOOD")).2.1.activeClients.lookup "sid9" = none) :=
  c10_start_auth_error_atomicity sampleState "+15551234567" "12345" "abchash" "sid9" 0
    "FLOOD" (by decide) (by decide) (by decide) (by decide) (by decide) (by decide)
